import Mathlib

/-!
Shallow embedding of the Diet MacAndCheese gate-evaluation backend
(`diet-mac-and-cheese/src/backend.rs`) and of the `Gf128` byte
(de)serialization (`scuttlebutt/src/field/gf_2_128.rs`).

The evaluator (`DietMacAndCheeseProver` / `DietMacAndCheeseVerifier`) is
modelled as explicit state passing.  The external interactive
sub-protocols of the commitment functionality (`input1`, `check_zero`,
`quicksilver_finalize`) and the `flush` operation of the channel live outside this
crate sources; each call site is parameterised by the outcome of that
one call (an `Option` tag, or a success `Bool`), and every operation
additionally returns the list of communication events it performed, so
that "performs no communication" is the statement that this list is
empty.
-/

/-- Communication events an evaluator operation can perform on the channel. -/
inductive CommEvent : Type
| flush
| auth
| checkZeroComm
| multCheckComm
deriving DecidableEq, Repr

/-- Errors surfaced by the backend: the poisoned-state error produced by
`check_is_ok`, and errors propagated from the interactive sub-protocols. -/
inductive BackendError : Type
| stateError
| protocolError
deriving DecidableEq, Repr

/-- Result of one evaluator operation: the returned `Result`, the
post-state, and the communication trace of the call. -/
structure OpResult (σ : Type u) (α : Type v) : Type (max u v) where
  res : Except BackendError α
  state : σ
  events : List CommEvent

/-- `QUEUE_CAPACITY` from `backend.rs`. -/
def QUEUE_CAPACITY : Nat := 3000000

/-- `TICK_TIMER` from `backend.rs`. -/
def TICK_TIMER : Nat := 5000000

/-- The `Monitor` counter block of `backend.rs`. -/
structure Monitor : Type where
  tick : Nat
  monitor_instance : Nat
  monitor_witness : Nat
  monitor_mul : Nat
  monitor_mulc : Nat
  monitor_add : Nat
  monitor_addc : Nat
  monitor_check_zero : Nat
  monitor_zk_check_zero : Nat
  monitor_zk_mult_check : Nat
deriving DecidableEq, Repr

/-- `Monitor::default()`. -/
def Monitor.default : Monitor := ⟨0, 0, 0, 0, 0, 0, 0, 0, 0, 0⟩

/-- `Monitor::tick` (renamed: the field keeps the source name `tick`):
increment the tick and wrap at `TICK_TIMER` (the wrapped branch also logs,
which has no state effect). -/
def Monitor.tick_step (m : Monitor) : Monitor :=
  let t := m.tick + 1
  if TICK_TIMER ≤ t then { m with tick := t % TICK_TIMER } else { m with tick := t }

/-- `Monitor::incr_monitor_instance`. -/
def Monitor.incr_monitor_instance (m : Monitor) : Monitor :=
  let m1 := m.tick_step
  { m1 with monitor_instance := m1.monitor_instance + 1 }

/-- `Monitor::incr_monitor_mul`. -/
def Monitor.incr_monitor_mul (m : Monitor) : Monitor :=
  let m1 := m.tick_step
  { m1 with monitor_mul := m1.monitor_mul + 1 }

/-- `Monitor::incr_monitor_mulc`. -/
def Monitor.incr_monitor_mulc (m : Monitor) : Monitor :=
  let m1 := m.tick_step
  { m1 with monitor_mulc := m1.monitor_mulc + 1 }

/-- `Monitor::incr_monitor_add`. -/
def Monitor.incr_monitor_add (m : Monitor) : Monitor :=
  let m1 := m.tick_step
  { m1 with monitor_add := m1.monitor_add + 1 }

/-- `Monitor::incr_monitor_addc`. -/
def Monitor.incr_monitor_addc (m : Monitor) : Monitor :=
  let m1 := m.tick_step
  { m1 with monitor_addc := m1.monitor_addc + 1 }

/-- `Monitor::incr_monitor_check_zero`. -/
def Monitor.incr_monitor_check_zero (m : Monitor) : Monitor :=
  let m1 := m.tick_step
  { m1 with monitor_check_zero := m1.monitor_check_zero + 1 }

/-- `Monitor::incr_monitor_witness`. -/
def Monitor.incr_monitor_witness (m : Monitor) : Monitor :=
  let m1 := m.tick_step
  { m1 with monitor_witness := m1.monitor_witness + 1 }

/-- `Monitor::incr_zk_mult_check` (no tick). -/
def Monitor.incr_zk_mult_check (m : Monitor) (n : Nat) : Monitor :=
  { m with monitor_zk_mult_check := m.monitor_zk_mult_check + n }

/-- `Monitor::incr_zk_check_zero` (no tick). -/
def Monitor.incr_zk_check_zero (m : Monitor) (n : Nat) : Monitor :=
  { m with monitor_zk_check_zero := m.monitor_zk_check_zero + n }

/-- `MacProver<FE>` from homcom: a clear value in the prime subfield `K`
paired with an authentication tag in the full field `F` (constructed in
`backend.rs` via `MacProver::new(value, tag)`, read via `.value()` and
`.mac()`). -/
structure MacProver (K F : Type) : Type where
  value : K
  mac : F
deriving DecidableEq, Repr

/-- `MacVerifier<FE>` from homcom: the verifier holds only the tag. -/
structure MacVerifier (F : Type) : Type where
  mac : F
deriving DecidableEq, Repr

/-- State of `DietMacAndCheeseProver` (`backend.rs`).  The channel, rng
and the shared `FComProver` handle are external and carry no state the
claims observe; the multiplication accumulator `state_mult_check` is
modelled as the list of pushed triples. -/
structure DietMacAndCheeseProver (K F : Type) : Type where
  is_ok : Bool
  check_zero_list : List (MacProver K F)
  monitor : Monitor
  state_mult_check : List (MacProver K F × MacProver K F × MacProver K F)
  no_batching : Bool
deriving DecidableEq, Repr

/-- State of `DietMacAndCheeseVerifier` (`backend.rs`). -/
structure DietMacAndCheeseVerifier (F : Type) : Type where
  is_ok : Bool
  check_zero_list : List (MacVerifier F)
  monitor : Monitor
  state_mult_check : List (MacVerifier F × MacVerifier F × MacVerifier F)
  no_batching : Bool
deriving DecidableEq, Repr

namespace DietMacAndCheeseProver

variable {K F : Type}

/-- `DietMacAndCheeseProver::input`: one `input1` authentication call on
the commitment functionality.  `input1` is interactive and outside this
crate; its outcome is the parameter `tagRes` (`some tag` on success,
`none` on failure).  On failure the evaluator poisons itself. -/
def input (s : DietMacAndCheeseProver K F) (v : K) (tagRes : Option F) :
    OpResult (DietMacAndCheeseProver K F) (MacProver K F) :=
  match tagRes with
  | some tag => ⟨.ok ⟨v, tag⟩, s, [.auth]⟩
  | none => ⟨.error .protocolError, { s with is_ok := false }, [.auth]⟩

/-- `DietMacAndCheeseProver::do_check_zero`: flush the channel (outcome
`flushOk`), run the interactive `check_zero` on the whole pending list
(outcome `czOk`), poison on `check_zero` failure, count the batch, and
clear the list. -/
def do_check_zero (s : DietMacAndCheeseProver K F) (flushOk czOk : Bool) :
    OpResult (DietMacAndCheeseProver K F) Unit :=
  if flushOk then
    let n := s.check_zero_list.length
    let s1 := if czOk then s else { s with is_ok := false }
    let s2 := { s1 with monitor := s1.monitor.incr_zk_check_zero n, check_zero_list := [] }
    ⟨if czOk then .ok () else .error .protocolError, s2, [.flush, .checkZeroComm]⟩
  else
    ⟨.error .protocolError, s, [.flush]⟩

/-- `DietMacAndCheeseProver::do_mult_check`: flush the channel, then run
the interactive `quicksilver_finalize` (outcome `qsOk`).  Modelled from
the spec: `quicksilver_finalize` covers and consumes every triple
accumulated since the last finalize or reset and returns their count, so
on success the accumulator is emptied and its length returned.  Note the
source propagates a `quicksilver_finalize` error without touching
`is_ok`. -/
def do_mult_check (s : DietMacAndCheeseProver K F) (flushOk qsOk : Bool) :
    OpResult (DietMacAndCheeseProver K F) Nat :=
  if flushOk then
    if qsOk then
      let cnt := s.state_mult_check.length
      ⟨.ok cnt,
        { s with monitor := s.monitor.incr_zk_mult_check cnt, state_mult_check := [] },
        [.flush, .multCheckComm]⟩
    else
      ⟨.error .protocolError, s, [.flush, .multCheckComm]⟩
  else
    ⟨.error .protocolError, s, [.flush]⟩

/-- `DietMacAndCheeseProver::push_check_zero_list`: push, then flush the
batch when the list reaches `QUEUE_CAPACITY` or batching is off. -/
def push_check_zero_list (s : DietMacAndCheeseProver K F) (e : MacProver K F)
    (flushOk czOk : Bool) : OpResult (DietMacAndCheeseProver K F) Unit :=
  let s1 := { s with check_zero_list := s.check_zero_list ++ [e] }
  if s1.check_zero_list.length = QUEUE_CAPACITY ∨ s1.no_batching = true then
    do_check_zero s1 flushOk czOk
  else
    ⟨.ok (), s1, []⟩

/-- `DietMacAndCheeseProver::assert_zero`. -/
def assert_zero (s : DietMacAndCheeseProver K F) (value : MacProver K F)
    (flushOk czOk : Bool) : OpResult (DietMacAndCheeseProver K F) Unit :=
  if s.is_ok then
    push_check_zero_list { s with monitor := s.monitor.incr_monitor_check_zero }
      value flushOk czOk
  else
    ⟨.error .stateError, s, []⟩

/-- `DietMacAndCheeseProver::add`.  The local `FComProver::add` is pure,
non-communicating linear algebra living outside this crate; it is passed
in as `fc`. -/
def add (fc : MacProver K F → MacProver K F → MacProver K F)
    (s : DietMacAndCheeseProver K F) (a b : MacProver K F) :
    OpResult (DietMacAndCheeseProver K F) (MacProver K F) :=
  if s.is_ok then
    ⟨.ok (fc a b), { s with monitor := s.monitor.incr_monitor_add }, []⟩
  else
    ⟨.error .stateError, s, []⟩

/-- `DietMacAndCheeseProver::mul`: the clear product is computed locally,
authenticated through one `input` call, and the triple `(a, b, out)` is
pushed onto the multiplication accumulator.  Modelled from the spec:
`quicksilver_push` is a local, infallible append to the accumulator. -/
def mul [Mul K] (s : DietMacAndCheeseProver K F) (a b : MacProver K F)
    (tagRes : Option F) : OpResult (DietMacAndCheeseProver K F) (MacProver K F) :=
  if s.is_ok then
    let s1 := { s with monitor := s.monitor.incr_monitor_mul }
    let product := a.value * b.value
    let r := input s1 product tagRes
    match r.res with
    | .ok out =>
        ⟨.ok out,
          { r.state with state_mult_check := r.state.state_mult_check ++ [(a, b, out)] },
          r.events⟩
    | .error e => ⟨.error e, r.state, r.events⟩
  else
    ⟨.error .stateError, s, []⟩

/-- `DietMacAndCheeseProver::addc`.  The local `affine_add_cst` is passed
in as `fc`. -/
def addc (fc : K → MacProver K F → MacProver K F)
    (s : DietMacAndCheeseProver K F) (a : MacProver K F) (b : K) :
    OpResult (DietMacAndCheeseProver K F) (MacProver K F) :=
  if s.is_ok then
    ⟨.ok (fc b a), { s with monitor := s.monitor.incr_monitor_addc }, []⟩
  else
    ⟨.error .stateError, s, []⟩

/-- `DietMacAndCheeseProver::mulc`.  The local `affine_mult_cst` is
passed in as `fc`. -/
def mulc (fc : K → MacProver K F → MacProver K F)
    (s : DietMacAndCheeseProver K F) (value : MacProver K F) (constant : K) :
    OpResult (DietMacAndCheeseProver K F) (MacProver K F) :=
  if s.is_ok then
    ⟨.ok (fc constant value), { s with monitor := s.monitor.incr_monitor_mulc }, []⟩
  else
    ⟨.error .stateError, s, []⟩

/-- `DietMacAndCheeseProver::input_public`: no ok-flag check, no
`Result`, no communication; the tag is `FE::ZERO`. -/
def input_public [Zero F] (s : DietMacAndCheeseProver K F) (value : K) :
    MacProver K F × DietMacAndCheeseProver K F × List CommEvent :=
  (⟨value, 0⟩, { s with monitor := s.monitor.incr_monitor_instance }, [])

/-- `DietMacAndCheeseProver::input_private`. -/
def input_private (s : DietMacAndCheeseProver K F) (value : K) (tagRes : Option F) :
    OpResult (DietMacAndCheeseProver K F) (MacProver K F) :=
  if s.is_ok then
    input { s with monitor := s.monitor.incr_monitor_witness } value tagRes
  else
    ⟨.error .stateError, s, []⟩

/-- `DietMacAndCheeseProver::finalize`: ok-flag check, channel flush
(outcome `flushOk0`), zero-check flush, multiplication check.  The final
logging has no state effect. -/
def finalize (s : DietMacAndCheeseProver K F)
    (flushOk0 flushOk1 czOk flushOk2 qsOk : Bool) :
    OpResult (DietMacAndCheeseProver K F) Unit :=
  if s.is_ok then
    if flushOk0 then
      let r1 := do_check_zero s flushOk1 czOk
      match r1.res with
      | .error e => ⟨.error e, r1.state, .flush :: r1.events⟩
      | .ok _ =>
          let r2 := do_mult_check r1.state flushOk2 qsOk
          match r2.res with
          | .error e => ⟨.error e, r2.state, .flush :: (r1.events ++ r2.events)⟩
          | .ok _ => ⟨.ok (), r2.state, .flush :: (r1.events ++ r2.events)⟩
    else
      ⟨.error .protocolError, s, [.flush]⟩
  else
    ⟨.error .stateError, s, []⟩

/-- `DietMacAndCheeseProver::reset`.  Modelled from the spec:
`FComProver::reset(accumulator)` (outside this crate) reinitializes the
multiplication accumulator for a fresh epoch; then the ok-flag is set
back to `true`. -/
def reset (s : DietMacAndCheeseProver K F) : DietMacAndCheeseProver K F :=
  { s with state_mult_check := [], is_ok := true }

end DietMacAndCheeseProver

namespace DietMacAndCheeseVerifier

variable {K F : Type}

/-- `DietMacAndCheeseVerifier::input`: one `input1` call; the verifier
supplies nothing and receives a tag.  On failure the evaluator poisons
itself. -/
def input (s : DietMacAndCheeseVerifier F) (tagRes : Option F) :
    OpResult (DietMacAndCheeseVerifier F) (MacVerifier F) :=
  match tagRes with
  | some tag => ⟨.ok ⟨tag⟩, s, [.auth]⟩
  | none => ⟨.error .protocolError, { s with is_ok := false }, [.auth]⟩

/-- `DietMacAndCheeseVerifier::do_check_zero`: flush, interactive
`check_zero` on the whole pending list, poison on failure, count, clear
the list. -/
def do_check_zero (s : DietMacAndCheeseVerifier F) (flushOk czOk : Bool) :
    OpResult (DietMacAndCheeseVerifier F) Unit :=
  if flushOk then
    let n := s.check_zero_list.length
    let s1 := if czOk then s else { s with is_ok := false }
    let s2 := { s1 with monitor := s1.monitor.incr_zk_check_zero n, check_zero_list := [] }
    ⟨if czOk then .ok () else .error .protocolError, s2, [.flush, .checkZeroComm]⟩
  else
    ⟨.error .protocolError, s, [.flush]⟩

/-- `DietMacAndCheeseVerifier::do_mult_check`: flush, then
`quicksilver_finalize` (see the prover-side comment; a failure is
propagated without touching `is_ok`). -/
def do_mult_check (s : DietMacAndCheeseVerifier F) (flushOk qsOk : Bool) :
    OpResult (DietMacAndCheeseVerifier F) Nat :=
  if flushOk then
    if qsOk then
      let cnt := s.state_mult_check.length
      ⟨.ok cnt,
        { s with monitor := s.monitor.incr_zk_mult_check cnt, state_mult_check := [] },
        [.flush, .multCheckComm]⟩
    else
      ⟨.error .protocolError, s, [.flush, .multCheckComm]⟩
  else
    ⟨.error .protocolError, s, [.flush]⟩

/-- `DietMacAndCheeseVerifier::push_check_zero_list`. -/
def push_check_zero_list (s : DietMacAndCheeseVerifier F) (e : MacVerifier F)
    (flushOk czOk : Bool) : OpResult (DietMacAndCheeseVerifier F) Unit :=
  let s1 := { s with check_zero_list := s.check_zero_list ++ [e] }
  if s1.check_zero_list.length = QUEUE_CAPACITY ∨ s1.no_batching = true then
    do_check_zero s1 flushOk czOk
  else
    ⟨.ok (), s1, []⟩

/-- `DietMacAndCheeseVerifier::assert_zero`. -/
def assert_zero (s : DietMacAndCheeseVerifier F) (value : MacVerifier F)
    (flushOk czOk : Bool) : OpResult (DietMacAndCheeseVerifier F) Unit :=
  if s.is_ok then
    push_check_zero_list { s with monitor := s.monitor.incr_monitor_check_zero }
      value flushOk czOk
  else
    ⟨.error .stateError, s, []⟩

/-- `DietMacAndCheeseVerifier::add` with the local `FComVerifier::add`
passed in as `fc`. -/
def add (fc : MacVerifier F → MacVerifier F → MacVerifier F)
    (s : DietMacAndCheeseVerifier F) (a b : MacVerifier F) :
    OpResult (DietMacAndCheeseVerifier F) (MacVerifier F) :=
  if s.is_ok then
    ⟨.ok (fc a b), { s with monitor := s.monitor.incr_monitor_add }, []⟩
  else
    ⟨.error .stateError, s, []⟩

/-- `DietMacAndCheeseVerifier::mul`: one `input` call to receive the
tag of the product, then push `(a, b, tag)` onto the multiplication
accumulator (modelled, as on the prover side, as an infallible append). -/
def mul (s : DietMacAndCheeseVerifier F) (a b : MacVerifier F)
    (tagRes : Option F) : OpResult (DietMacAndCheeseVerifier F) (MacVerifier F) :=
  if s.is_ok then
    let s1 := { s with monitor := s.monitor.incr_monitor_mul }
    let r := input s1 tagRes
    match r.res with
    | .ok tag =>
        ⟨.ok tag,
          { r.state with state_mult_check := r.state.state_mult_check ++ [(a, b, tag)] },
          r.events⟩
    | .error e => ⟨.error e, r.state, r.events⟩
  else
    ⟨.error .stateError, s, []⟩

/-- `DietMacAndCheeseVerifier::addc` with `affine_add_cst` passed in. -/
def addc (fc : K → MacVerifier F → MacVerifier F)
    (s : DietMacAndCheeseVerifier F) (a : MacVerifier F) (b : K) :
    OpResult (DietMacAndCheeseVerifier F) (MacVerifier F) :=
  if s.is_ok then
    ⟨.ok (fc b a), { s with monitor := s.monitor.incr_monitor_addc }, []⟩
  else
    ⟨.error .stateError, s, []⟩

/-- `DietMacAndCheeseVerifier::mulc` with `affine_mult_cst` passed in. -/
def mulc (fc : K → MacVerifier F → MacVerifier F)
    (s : DietMacAndCheeseVerifier F) (a : MacVerifier F) (b : K) :
    OpResult (DietMacAndCheeseVerifier F) (MacVerifier F) :=
  if s.is_ok then
    ⟨.ok (fc b a), { s with monitor := s.monitor.incr_monitor_mulc }, []⟩
  else
    ⟨.error .stateError, s, []⟩

/-- `DietMacAndCheeseVerifier::input_public`: no ok-flag check, no
`Result`, no communication; the tag is `-val * get_delta()`, where the
clear value `val` lives in the prime subfield and is carried into the
full field by the subfield embedding `i`. -/
def input_public [CommRing K] [CommRing F] (i : K →+* F) (delta : F)
    (s : DietMacAndCheeseVerifier F) (val : K) :
    MacVerifier F × DietMacAndCheeseVerifier F × List CommEvent :=
  (⟨i (-val) * delta⟩, { s with monitor := s.monitor.incr_monitor_instance }, [])

/-- `DietMacAndCheeseVerifier::input_private`. -/
def input_private (s : DietMacAndCheeseVerifier F) (tagRes : Option F) :
    OpResult (DietMacAndCheeseVerifier F) (MacVerifier F) :=
  if s.is_ok then
    input { s with monitor := s.monitor.incr_monitor_witness } tagRes
  else
    ⟨.error .stateError, s, []⟩

/-- `DietMacAndCheeseVerifier::finalize`. -/
def finalize (s : DietMacAndCheeseVerifier F)
    (flushOk0 flushOk1 czOk flushOk2 qsOk : Bool) :
    OpResult (DietMacAndCheeseVerifier F) Unit :=
  if s.is_ok then
    if flushOk0 then
      let r1 := do_check_zero s flushOk1 czOk
      match r1.res with
      | .error e => ⟨.error e, r1.state, .flush :: r1.events⟩
      | .ok _ =>
          let r2 := do_mult_check r1.state flushOk2 qsOk
          match r2.res with
          | .error e => ⟨.error e, r2.state, .flush :: (r1.events ++ r2.events)⟩
          | .ok _ => ⟨.ok (), r2.state, .flush :: (r1.events ++ r2.events)⟩
    else
      ⟨.error .protocolError, s, [.flush]⟩
  else
    ⟨.error .stateError, s, []⟩

/-- `DietMacAndCheeseVerifier::reset` (see the prover-side comment). -/
def reset (s : DietMacAndCheeseVerifier F) : DietMacAndCheeseVerifier F :=
  { s with state_mult_check := [], is_ok := true }

end DietMacAndCheeseVerifier

/-- The trailing-zero-stripping loop of `padded_read` in `backend.rs`:
`while x.last() == Some(&0) { x = &x[0..x.len() - 1]; }`. -/
def stripTrailingZeros (x : List Nat) : List Nat :=
  (x.reverse.dropWhile (fun b => b == 0)).reverse

/-- `padded_read` from `backend.rs`, generic over the canonical field
byte length `byteLen` (`FE::ByteReprLen::USIZE`) and its canonical
decoder `from_bytes` (`FE::from_bytes`, applied to a buffer of exactly
`byteLen` bytes): strip trailing zeros, fail if the remaining length
exceeds `byteLen`, otherwise copy into a zero-initialized canonical
buffer and decode. -/
def padded_read {F : Type} (byteLen : Nat) (from_bytes : List Nat → Except Unit F)
    (x : List Nat) : Except Unit F :=
  let x1 := stripTrailingZeros x
  if byteLen < x1.length then
    .error ()
  else
    from_bytes (x1 ++ List.replicate (byteLen - x1.length) 0)

/-- `from_bytes_le` from `backend.rs`. -/
def from_bytes_le {F : Type} (byteLen : Nat) (from_bytes : List Nat → Except Unit F)
    (val : List Nat) : Except Unit F :=
  padded_read byteLen from_bytes val

/-- Little-endian byte decomposition of a natural number into `n` bytes,
as produced by `u128::to_le_bytes` (for `n = 16` and values below
`2 ^ 128`). -/
def toBytesLE : Nat → Nat → List Nat
  | 0, _ => []
  | n + 1, v => v % 256 :: toBytesLE n (v / 256)

/-- Little-endian byte recomposition, as computed by
`u128::from_le_bytes`: byte `i` has weight `256 ^ i`. -/
def fromBytesLE (l : List Nat) : Nat :=
  l.foldr (fun b acc => b + 256 * acc) 0

/-- The uninhabited deserialization error type of `Gf128`
(`gf_2_128.rs`): `pub enum Gf128BytesDeserializationCannotFail {}`. -/
inductive Gf128BytesDeserializationCannotFail : Type

/-- `Gf128` (`gf_2_128.rs`): a wrapper around a `u128`, modelled as a
natural number (in range when below `2 ^ 128`). -/
structure Gf128 : Type where
  val : Nat
deriving DecidableEq, Repr

/-- `Gf128::from_bytes`: `Ok(Gf128(u128::from_le_bytes(*bytes)))` on a
16-byte canonical buffer; it cannot fail. -/
def Gf128.from_bytes (bytes : List Nat) :
    Except Gf128BytesDeserializationCannotFail Gf128 :=
  .ok ⟨fromBytesLE bytes⟩

/-- `Gf128::to_bytes`: `self.0.to_le_bytes()`, 16 little-endian bytes. -/
def Gf128.to_bytes (x : Gf128) : List Nat :=
  toBytesLE 16 x.val

/-- A concrete prover-side authenticated value used to instantiate the
generic theorems. -/
def sampleMac : MacProver Int Int := ⟨2, 5⟩

/-- A concrete verifier-side authenticated value. -/
def sampleMacV : MacVerifier Int := ⟨7⟩

/-- A concrete healthy prover state. -/
def sampleProver : DietMacAndCheeseProver Int Int :=
  { is_ok := true, check_zero_list := [], monitor := Monitor.default,
    state_mult_check := [], no_batching := false }

/-- A concrete poisoned prover state. -/
def sampleProverBad : DietMacAndCheeseProver Int Int :=
  { sampleProver with is_ok := false }

/-- A concrete healthy verifier state. -/
def sampleVerifier : DietMacAndCheeseVerifier Int :=
  { is_ok := true, check_zero_list := [], monitor := Monitor.default,
    state_mult_check := [], no_batching := false }

/-- A concrete poisoned verifier state. -/
def sampleVerifierBad : DietMacAndCheeseVerifier Int :=
  { sampleVerifier with is_ok := false }

/-- A concrete instantiation of the prover-side local `FComProver::add`. -/
def sampleAdd : MacProver Int Int → MacProver Int Int → MacProver Int Int :=
  fun a b => ⟨a.value + b.value, a.mac + b.mac⟩

/-- A concrete instantiation of the prover-side local affine-constant ops. -/
def sampleCst : Int → MacProver Int Int → MacProver Int Int :=
  fun c a => ⟨a.value + c, a.mac⟩

/-- A concrete instantiation of the verifier-side local `FComVerifier::add`. -/
def sampleAddV : MacVerifier Int → MacVerifier Int → MacVerifier Int :=
  fun a b => ⟨a.mac + b.mac⟩

/-- A concrete instantiation of the verifier-side local affine-constant ops. -/
def sampleCstV : Int → MacVerifier Int → MacVerifier Int :=
  fun c a => ⟨a.mac + c⟩

/-- A concrete healthy prover state whose pending zero-check list holds
`QUEUE_CAPACITY - 1` entries. -/
def nearCapacityProver : DietMacAndCheeseProver Int Int :=
  { is_ok := true,
    check_zero_list := List.replicate (QUEUE_CAPACITY - 1) sampleMac,
    monitor := Monitor.default, state_mult_check := [], no_batching := false }

/-- The state a capacity-triggered `assert_zero` on `nearCapacityProver`
leaves behind when the channel flush inside `do_check_zero` fails: the
pending list holds exactly `QUEUE_CAPACITY` entries and the evaluator is
still not poisoned, because the early return of `do_check_zero` neither
clears the list nor touches the ok-flag. -/
def atCapacityProver : DietMacAndCheeseProver Int Int :=
  { is_ok := true,
    check_zero_list := List.replicate (QUEUE_CAPACITY - 1) sampleMac ++ [sampleMac],
    monitor := Monitor.default.incr_monitor_check_zero,
    state_mult_check := [], no_batching := false }

theorem dropWhile_zero_replicate (k : Nat) (l : List Nat) :
    List.dropWhile (fun b => b == 0) (List.replicate k 0 ++ l) =
      List.dropWhile (fun b => b == 0) l := by
  induction k with
  | zero => simp
  | succ n ih => simp [List.replicate_succ, List.dropWhile_cons, ih]

theorem dropWhile_self_idem (p : Nat → Bool) (l : List Nat) :
    List.dropWhile p (List.dropWhile p l) = List.dropWhile p l := by
  induction l with
  | nil => simp
  | cons a l ih =>
    by_cases h : p a
    · simpa [List.dropWhile_cons, h] using ih
    · simp [List.dropWhile_cons, h]

theorem stripTrailingZeros_append_replicate (x : List Nat) (k : Nat) :
    stripTrailingZeros (x ++ List.replicate k 0) = stripTrailingZeros x := by
  unfold stripTrailingZeros
  rw [List.reverse_append, List.reverse_replicate, dropWhile_zero_replicate]

theorem stripTrailingZeros_idem (x : List Nat) :
    stripTrailingZeros (stripTrailingZeros x) = stripTrailingZeros x := by
  unfold stripTrailingZeros
  rw [List.reverse_reverse, dropWhile_self_idem]

theorem fromBytesLE_cons (b : Nat) (l : List Nat) :
    fromBytesLE (b :: l) = b + 256 * fromBytesLE l := rfl

theorem fromBytesLE_toBytesLE (n : Nat) : ∀ v : Nat, v < 256 ^ n →
    fromBytesLE (toBytesLE n v) = v := by
  induction n with
  | zero =>
    intro v hv
    interval_cases v
    rfl
  | succ n ih =>
    intro v hv
    have hdiv : v / 256 < 256 ^ n := by
      rw [Nat.div_lt_iff_lt_mul (by norm_num)]
      calc v < 256 ^ (n + 1) := hv
        _ = 256 ^ n * 256 := by ring
    rw [toBytesLE, fromBytesLE_cons, ih _ hdiv, Nat.mod_add_div]

/-- C3: `from_bytes_le` decodes after stripping trailing zero bytes:
appending any number of trailing zero bytes to a buffer decodes to the
same result as decoding its minimal-length (zero-stripped) prefix, and
decoding fails exactly when the stripped length exceeds the field
canonical byte length or the underlying field rejects the canonical
zero-padded buffer. -/
theorem from_bytes_le_strips_trailing_zeros {F : Type} (byteLen : Nat)
    (fb : List Nat → Except Unit F) (x : List Nat) (k : Nat) :
    from_bytes_le byteLen fb (x ++ List.replicate k 0) =
      from_bytes_le byteLen fb (stripTrailingZeros x) ∧
    from_bytes_le byteLen fb x = from_bytes_le byteLen fb (stripTrailingZeros x) ∧
    (from_bytes_le byteLen fb x = .error () ↔
      (byteLen < (stripTrailingZeros x).length ∨
        ((stripTrailingZeros x).length ≤ byteLen ∧
          fb (stripTrailingZeros x ++
            List.replicate (byteLen - (stripTrailingZeros x).length) 0) = .error ()))) := by
  have hpad := stripTrailingZeros_append_replicate x k
  have hidem := stripTrailingZeros_idem x
  unfold from_bytes_le padded_read
  rw [hpad, hidem]
  refine ⟨rfl, rfl, ?_⟩
  by_cases h : byteLen < (stripTrailingZeros x).length
  · simp [h]
  · simp [h, Nat.le_of_not_lt h]

/-- C10: for every `Gf128` element (a `u128`, i.e. a value below
`2 ^ 128`), `from_bytes (to_bytes x) = x`; `from_bytes` is total on
byte buffers (it always returns `Ok`); and its error type
`Gf128BytesDeserializationCannotFail` is uninhabited. -/
theorem gf128_from_bytes_to_bytes_roundtrip :
    (∀ x : Gf128, x.val < 2 ^ 128 → Gf128.from_bytes (Gf128.to_bytes x) = .ok x) ∧
    (∀ l : List Nat, ∃ y : Gf128, Gf128.from_bytes l = .ok y) ∧
    IsEmpty Gf128BytesDeserializationCannotFail := by
  refine ⟨?_, fun l => ⟨⟨fromBytesLE l⟩, rfl⟩, ⟨fun e => nomatch e⟩⟩
  intro x hx
  obtain ⟨v⟩ := x
  have hv : v < 256 ^ 16 := by
    have h16 : (256 : Nat) ^ 16 = 2 ^ 128 := by norm_num
    rw [h16]
    exact hx
  unfold Gf128.from_bytes Gf128.to_bytes
  rw [fromBytesLE_toBytesLE 16 v hv]

/-- Witness for the roundtrip theorem at the concrete element 12345. -/
theorem gf128_from_bytes_to_bytes_roundtrip_witness :
    (⟨12345⟩ : Gf128).val < 2 ^ 128 ∧
    Gf128.from_bytes (Gf128.to_bytes ⟨12345⟩) = .ok (⟨12345⟩ : Gf128) :=
  ⟨by norm_num, gf128_from_bytes_to_bytes_roundtrip.1 ⟨12345⟩ (by norm_num)⟩

/-- C7: `reset` (both roles) sets the ok-flag back to `true` and
reinitializes the multiplication accumulator, and leaves every other
evaluator field unchanged; in particular the pending zero-check queue is
identical before and after `reset`. -/
theorem reset_restores_ok_and_clears_accumulator_only {K F : Type}
    (s : DietMacAndCheeseProver K F) (t : DietMacAndCheeseVerifier F) :
    (DietMacAndCheeseProver.reset s).is_ok = true ∧
    (DietMacAndCheeseProver.reset s).state_mult_check = [] ∧
    (DietMacAndCheeseProver.reset s).check_zero_list = s.check_zero_list ∧
    (DietMacAndCheeseProver.reset s).monitor = s.monitor ∧
    (DietMacAndCheeseProver.reset s).no_batching = s.no_batching ∧
    (DietMacAndCheeseVerifier.reset t).is_ok = true ∧
    (DietMacAndCheeseVerifier.reset t).state_mult_check = [] ∧
    (DietMacAndCheeseVerifier.reset t).check_zero_list = t.check_zero_list ∧
    (DietMacAndCheeseVerifier.reset t).monitor = t.monitor ∧
    (DietMacAndCheeseVerifier.reset t).no_batching = t.no_batching := by
  simp [DietMacAndCheeseProver.reset, DietMacAndCheeseVerifier.reset]

/-- C8: `input_public` never fails (it does not even return a `Result`)
and performs no communication; the prover tag is the zero of the field and
the verifier tag is `-v * Δ` (the clear value carried into the full
field by the subfield embedding `i`). -/
theorem input_public_deterministic_tags {K F : Type} [CommRing K] [CommRing F]
    (i : K →+* F) (delta : F) (s : DietMacAndCheeseProver K F)
    (t : DietMacAndCheeseVerifier F) (v : K) :
    (DietMacAndCheeseProver.input_public s v).1 = (⟨v, 0⟩ : MacProver K F) ∧
    (DietMacAndCheeseProver.input_public s v).2.2 = [] ∧
    (DietMacAndCheeseVerifier.input_public i delta t v).1.mac = -(i v) * delta ∧
    (DietMacAndCheeseVerifier.input_public i delta t v).2.2 = [] := by
  simp [DietMacAndCheeseProver.input_public, DietMacAndCheeseVerifier.input_public]

/-- C4: whenever the zero-check flush runs on either role (the channel
flush having succeeded), the channel is flushed before the `check_zero`
round, the pending list is empty afterwards whether `check_zero`
succeeded or failed, the ok-flag is cleared exactly on a `check_zero`
failure, and the call succeeds exactly when `check_zero` does. -/
theorem do_check_zero_clears_list_unconditionally {K F : Type}
    (s : DietMacAndCheeseProver K F) (t : DietMacAndCheeseVerifier F)
    (czOk : Bool) :
    (DietMacAndCheeseProver.do_check_zero s true czOk).events =
      [.flush, .checkZeroComm] ∧
    (DietMacAndCheeseProver.do_check_zero s true czOk).state.check_zero_list = [] ∧
    (DietMacAndCheeseProver.do_check_zero s true czOk).state.is_ok =
      (czOk && s.is_ok) ∧
    (DietMacAndCheeseProver.do_check_zero s true czOk).res =
      (if czOk then .ok () else .error .protocolError) ∧
    (DietMacAndCheeseVerifier.do_check_zero t true czOk).events =
      [.flush, .checkZeroComm] ∧
    (DietMacAndCheeseVerifier.do_check_zero t true czOk).state.check_zero_list = [] ∧
    (DietMacAndCheeseVerifier.do_check_zero t true czOk).state.is_ok =
      (czOk && t.is_ok) ∧
    (DietMacAndCheeseVerifier.do_check_zero t true czOk).res =
      (if czOk then .ok () else .error .protocolError) := by
  cases czOk <;>
    simp [DietMacAndCheeseProver.do_check_zero, DietMacAndCheeseVerifier.do_check_zero]

/-- C1 counterexample: on a poisoned evaluator, `input_public` does not
fail with a state error — it has no failure path at all, and it even
changes the evaluator state (the monitor instance counter), on both
roles. -/
theorem poisoned_input_public_does_not_fail :
    sampleProverBad.is_ok = false ∧
    (DietMacAndCheeseProver.input_public sampleProverBad (1 : Int)).2.1 ≠
      sampleProverBad ∧
    sampleVerifierBad.is_ok = false ∧
    (DietMacAndCheeseVerifier.input_public (RingHom.id Int) 3 sampleVerifierBad
      (1 : Int)).2.1 ≠ sampleVerifierBad := by
  refine ⟨rfl, ?_, rfl, ?_⟩ <;>
    simp [DietMacAndCheeseProver.input_public, DietMacAndCheeseVerifier.input_public,
      sampleProverBad, sampleVerifierBad, sampleProver, sampleVerifier,
      Monitor.incr_monitor_instance, Monitor.tick_step, Monitor.default, TICK_TIMER]

/-- C1 (amended): every public operation of either role other than
`input_public` — that is, `input_private`, `add`, `addc`, `mul`, `mulc`,
`assert_zero` and `finalize` —, when the evaluator is poisoned, fails
immediately with a state error, performs no communication, and leaves
the state exactly unchanged, until `reset` restores the ok-flag;
`input_public` performs no ok-flag check: it never fails, performs no
communication, and touches only the monitor. -/
theorem poisoned_operations_short_circuit {K F : Type} [CommRing K] [CommRing F]
    (i : K →+* F) (delta : F)
    (fc1 : MacProver K F → MacProver K F → MacProver K F)
    (fc2 fc3 : K → MacProver K F → MacProver K F)
    (gc1 : MacVerifier F → MacVerifier F → MacVerifier F)
    (gc2 gc3 : K → MacVerifier F → MacVerifier F)
    (s : DietMacAndCheeseProver K F) (t : DietMacAndCheeseVerifier F)
    (hs : s.is_ok = false) (ht : t.is_ok = false)
    (a b : MacProver K F) (u w : MacVerifier F) (c : K) (tagRes : Option F)
    (f1 f2 f3 f4 f5 : Bool) :
    DietMacAndCheeseProver.input_private s c tagRes = ⟨.error .stateError, s, []⟩ ∧
    DietMacAndCheeseProver.add fc1 s a b = ⟨.error .stateError, s, []⟩ ∧
    DietMacAndCheeseProver.addc fc2 s a c = ⟨.error .stateError, s, []⟩ ∧
    DietMacAndCheeseProver.mulc fc3 s a c = ⟨.error .stateError, s, []⟩ ∧
    DietMacAndCheeseProver.mul s a b tagRes = ⟨.error .stateError, s, []⟩ ∧
    DietMacAndCheeseProver.assert_zero s a f1 f2 = ⟨.error .stateError, s, []⟩ ∧
    DietMacAndCheeseProver.finalize s f1 f2 f3 f4 f5 = ⟨.error .stateError, s, []⟩ ∧
    (DietMacAndCheeseProver.reset s).is_ok = true ∧
    (DietMacAndCheeseProver.input_public s c).2.2 = [] ∧
    (DietMacAndCheeseProver.input_public s c).2.1 =
      { s with monitor := s.monitor.incr_monitor_instance } ∧
    DietMacAndCheeseVerifier.input_private t tagRes = ⟨.error .stateError, t, []⟩ ∧
    DietMacAndCheeseVerifier.add gc1 t u w = ⟨.error .stateError, t, []⟩ ∧
    DietMacAndCheeseVerifier.addc gc2 t u c = ⟨.error .stateError, t, []⟩ ∧
    DietMacAndCheeseVerifier.mulc gc3 t u c = ⟨.error .stateError, t, []⟩ ∧
    DietMacAndCheeseVerifier.mul t u w tagRes = ⟨.error .stateError, t, []⟩ ∧
    DietMacAndCheeseVerifier.assert_zero t u f1 f2 = ⟨.error .stateError, t, []⟩ ∧
    DietMacAndCheeseVerifier.finalize t f1 f2 f3 f4 f5 = ⟨.error .stateError, t, []⟩ ∧
    (DietMacAndCheeseVerifier.reset t).is_ok = true ∧
    (DietMacAndCheeseVerifier.input_public i delta t c).2.2 = [] ∧
    (DietMacAndCheeseVerifier.input_public i delta t c).2.1 =
      { t with monitor := t.monitor.incr_monitor_instance } := by
  simp [DietMacAndCheeseProver.input_private, DietMacAndCheeseProver.add,
    DietMacAndCheeseProver.addc, DietMacAndCheeseProver.mulc,
    DietMacAndCheeseProver.mul, DietMacAndCheeseProver.assert_zero,
    DietMacAndCheeseProver.finalize, DietMacAndCheeseProver.reset,
    DietMacAndCheeseProver.input_public,
    DietMacAndCheeseVerifier.input_private, DietMacAndCheeseVerifier.add,
    DietMacAndCheeseVerifier.addc, DietMacAndCheeseVerifier.mulc,
    DietMacAndCheeseVerifier.mul, DietMacAndCheeseVerifier.assert_zero,
    DietMacAndCheeseVerifier.finalize, DietMacAndCheeseVerifier.reset,
    DietMacAndCheeseVerifier.input_public, hs, ht]

/-- Witness: the amended C1 theorem applied to concrete poisoned
evaluators. -/
theorem poisoned_operations_short_circuit_witness :
    sampleProverBad.is_ok = false ∧
    sampleVerifierBad.is_ok = false ∧
    DietMacAndCheeseProver.input_private sampleProverBad (2 : Int) (some (3 : Int)) =
      ⟨.error .stateError, sampleProverBad, []⟩ :=
  ⟨rfl, rfl,
    (poisoned_operations_short_circuit (RingHom.id Int) 3 sampleAdd sampleCst
      sampleCst sampleAddV sampleCstV sampleCstV sampleProverBad sampleVerifierBad
      rfl rfl sampleMac sampleMac sampleMacV sampleMacV 2 (some 3)
      true true true true true).1⟩

/-- C2: on a non-poisoned evaluator, `mul(a, b)` on the prover computes
the clear product locally and authenticates it with a single
authentication round, so the clear part of the returned value is
`a.value * b.value`; the verifier performs a single `input` round to
receive the tag of the product; on success both roles append exactly the one
triple `(a, b, out)` to the multiplication accumulator, and an
authentication failure poisons the evaluator. -/
theorem mul_product_one_auth_one_triple {K F : Type} [CommRing K] [CommRing F]
    (s : DietMacAndCheeseProver K F) (t : DietMacAndCheeseVerifier F)
    (hs : s.is_ok = true) (ht : t.is_ok = true)
    (a b : MacProver K F) (u w : MacVerifier F) (tag : F) :
    (DietMacAndCheeseProver.mul s a b (some tag)).res =
      .ok (⟨a.value * b.value, tag⟩ : MacProver K F) ∧
    (DietMacAndCheeseProver.mul s a b (some tag)).state.state_mult_check =
      s.state_mult_check ++ [(a, b, (⟨a.value * b.value, tag⟩ : MacProver K F))] ∧
    (DietMacAndCheeseProver.mul s a b (some tag)).events = [.auth] ∧
    (DietMacAndCheeseProver.mul s a b (some tag)).state.is_ok = true ∧
    (DietMacAndCheeseProver.mul s a b (some tag)).state.check_zero_list =
      s.check_zero_list ∧
    (DietMacAndCheeseProver.mul s a b none).res = .error .protocolError ∧
    (DietMacAndCheeseProver.mul s a b none).state.is_ok = false ∧
    (DietMacAndCheeseVerifier.mul t u w (some tag)).res =
      .ok (⟨tag⟩ : MacVerifier F) ∧
    (DietMacAndCheeseVerifier.mul t u w (some tag)).state.state_mult_check =
      t.state_mult_check ++ [(u, w, (⟨tag⟩ : MacVerifier F))] ∧
    (DietMacAndCheeseVerifier.mul t u w (some tag)).events = [.auth] ∧
    (DietMacAndCheeseVerifier.mul t u w (some tag)).state.is_ok = true ∧
    (DietMacAndCheeseVerifier.mul t u w (some tag)).state.check_zero_list =
      t.check_zero_list ∧
    (DietMacAndCheeseVerifier.mul t u w none).res = .error .protocolError ∧
    (DietMacAndCheeseVerifier.mul t u w none).state.is_ok = false := by
  simp [DietMacAndCheeseProver.mul, DietMacAndCheeseProver.input,
    DietMacAndCheeseVerifier.mul, DietMacAndCheeseVerifier.input, hs, ht]

/-- Witness: the `mul` theorem applied to concrete healthy evaluators
and concrete authenticated values. -/
theorem mul_product_one_auth_one_triple_witness :
    sampleProver.is_ok = true ∧
    (DietMacAndCheeseProver.mul sampleProver sampleMac sampleMac
      (some (9 : Int))).res = .ok (⟨4, 9⟩ : MacProver Int Int) :=
  ⟨rfl, by
    have h := (mul_product_one_auth_one_triple sampleProver sampleVerifier rfl rfl
      sampleMac sampleMac sampleMacV sampleMacV (9 : Int)).1
    simpa [sampleMac] using h⟩

/-- C9: on a non-poisoned evaluator of either role, the linear gates
`add`, `addc` and `mulc` always return `Ok`, perform no communication,
and leave the pending zero-check list, the ok-flag, the multiplication
accumulator and the batching mode unchanged (only the monitor counters
change). -/
theorem linear_gates_local_and_pure {K F : Type}
    (fc1 : MacProver K F → MacProver K F → MacProver K F)
    (fc2 fc3 : K → MacProver K F → MacProver K F)
    (gc1 : MacVerifier F → MacVerifier F → MacVerifier F)
    (gc2 gc3 : K → MacVerifier F → MacVerifier F)
    (s : DietMacAndCheeseProver K F) (t : DietMacAndCheeseVerifier F)
    (hs : s.is_ok = true) (ht : t.is_ok = true)
    (a b : MacProver K F) (u w : MacVerifier F) (c : K) :
    DietMacAndCheeseProver.add fc1 s a b =
      ⟨.ok (fc1 a b), { s with monitor := s.monitor.incr_monitor_add }, []⟩ ∧
    DietMacAndCheeseProver.addc fc2 s a c =
      ⟨.ok (fc2 c a), { s with monitor := s.monitor.incr_monitor_addc }, []⟩ ∧
    DietMacAndCheeseProver.mulc fc3 s a c =
      ⟨.ok (fc3 c a), { s with monitor := s.monitor.incr_monitor_mulc }, []⟩ ∧
    (DietMacAndCheeseProver.add fc1 s a b).state.check_zero_list =
      s.check_zero_list ∧
    (DietMacAndCheeseProver.add fc1 s a b).state.is_ok = s.is_ok ∧
    (DietMacAndCheeseProver.add fc1 s a b).state.state_mult_check =
      s.state_mult_check ∧
    (DietMacAndCheeseProver.add fc1 s a b).state.no_batching = s.no_batching ∧
    DietMacAndCheeseVerifier.add gc1 t u w =
      ⟨.ok (gc1 u w), { t with monitor := t.monitor.incr_monitor_add }, []⟩ ∧
    DietMacAndCheeseVerifier.addc gc2 t u c =
      ⟨.ok (gc2 c u), { t with monitor := t.monitor.incr_monitor_addc }, []⟩ ∧
    DietMacAndCheeseVerifier.mulc gc3 t u c =
      ⟨.ok (gc3 c u), { t with monitor := t.monitor.incr_monitor_mulc }, []⟩ ∧
    (DietMacAndCheeseVerifier.add gc1 t u w).state.check_zero_list =
      t.check_zero_list ∧
    (DietMacAndCheeseVerifier.add gc1 t u w).state.is_ok = t.is_ok ∧
    (DietMacAndCheeseVerifier.add gc1 t u w).state.state_mult_check =
      t.state_mult_check ∧
    (DietMacAndCheeseVerifier.add gc1 t u w).state.no_batching = t.no_batching := by
  simp [DietMacAndCheeseProver.add, DietMacAndCheeseProver.addc,
    DietMacAndCheeseProver.mulc, DietMacAndCheeseVerifier.add,
    DietMacAndCheeseVerifier.addc, DietMacAndCheeseVerifier.mulc, hs, ht]

/-- Witness: the linear-gate theorem applied to concrete healthy
evaluators. -/
theorem linear_gates_local_and_pure_witness :
    sampleProver.is_ok = true ∧
    DietMacAndCheeseProver.add sampleAdd sampleProver sampleMac sampleMac =
      ⟨.ok (sampleAdd sampleMac sampleMac),
        { sampleProver with monitor := sampleProver.monitor.incr_monitor_add }, []⟩ :=
  ⟨rfl,
    (linear_gates_local_and_pure sampleAdd sampleCst sampleCst sampleAddV
      sampleCstV sampleCstV sampleProver sampleVerifier rfl rfl sampleMac
      sampleMac sampleMacV sampleMacV 2).1⟩

theorem prover_assert_zero_reduction {K F : Type} (s : DietMacAndCheeseProver K F)
    (v : MacProver K F) (flushOk czOk : Bool) (hs : s.is_ok = true) :
    DietMacAndCheeseProver.assert_zero s v flushOk czOk =
      (if s.check_zero_list.length + 1 = QUEUE_CAPACITY ∨ s.no_batching = true then
        DietMacAndCheeseProver.do_check_zero
          { s with monitor := s.monitor.incr_monitor_check_zero,
                   check_zero_list := s.check_zero_list ++ [v] } flushOk czOk
      else
        ⟨.ok (), { s with monitor := s.monitor.incr_monitor_check_zero,
                          check_zero_list := s.check_zero_list ++ [v] }, []⟩) := by
  simp [DietMacAndCheeseProver.assert_zero,
    DietMacAndCheeseProver.push_check_zero_list, hs]

theorem verifier_assert_zero_reduction {F : Type} (t : DietMacAndCheeseVerifier F)
    (w : MacVerifier F) (flushOk czOk : Bool) (ht : t.is_ok = true) :
    DietMacAndCheeseVerifier.assert_zero t w flushOk czOk =
      (if t.check_zero_list.length + 1 = QUEUE_CAPACITY ∨ t.no_batching = true then
        DietMacAndCheeseVerifier.do_check_zero
          { t with monitor := t.monitor.incr_monitor_check_zero,
                   check_zero_list := t.check_zero_list ++ [w] } flushOk czOk
      else
        ⟨.ok (), { t with monitor := t.monitor.incr_monitor_check_zero,
                          check_zero_list := t.check_zero_list ++ [w] }, []⟩) := by
  simp [DietMacAndCheeseVerifier.assert_zero,
    DietMacAndCheeseVerifier.push_check_zero_list, ht]

theorem prover_queue_bound_aux {K F : Type} (s : DietMacAndCheeseProver K F)
    (v : MacProver K F) (flushOk czOk qsOk : Bool) (hs : s.is_ok = true)
    (hlen : s.check_zero_list.length < QUEUE_CAPACITY) :
    (DietMacAndCheeseProver.assert_zero s v flushOk czOk).state.check_zero_list.length ≤
      QUEUE_CAPACITY ∧
    ((DietMacAndCheeseProver.assert_zero s v flushOk czOk).res = .ok () →
      (DietMacAndCheeseProver.assert_zero s v flushOk czOk).state.check_zero_list.length <
        QUEUE_CAPACITY) ∧
    (s.no_batching = false → s.check_zero_list.length + 1 < QUEUE_CAPACITY →
      (DietMacAndCheeseProver.assert_zero s v flushOk czOk).state.check_zero_list =
        s.check_zero_list ++ [v] ∧
      (DietMacAndCheeseProver.assert_zero s v flushOk czOk).events = []) ∧
    ((s.check_zero_list.length + 1 = QUEUE_CAPACITY ∨ s.no_batching = true) →
      (DietMacAndCheeseProver.assert_zero s v flushOk czOk).events.head? =
        some .flush) ∧
    (s.no_batching = true →
      (DietMacAndCheeseProver.assert_zero s v flushOk czOk).res = .ok () →
      (DietMacAndCheeseProver.assert_zero s v flushOk czOk).state.check_zero_list = []) ∧
    (DietMacAndCheeseProver.finalize s true true czOk true qsOk).state.check_zero_list =
      [] := by
  rw [prover_assert_zero_reduction s v flushOk czOk hs]
  have hcap : 0 < QUEUE_CAPACITY := by norm_num [QUEUE_CAPACITY]
  refine ⟨?_, ?_, ?_, ?_, ?_, ?_⟩
  · by_cases hp : s.check_zero_list.length + 1 = QUEUE_CAPACITY ∨ s.no_batching = true
    · rw [if_pos hp]
      cases flushOk
      · simp only [DietMacAndCheeseProver.do_check_zero, Bool.false_eq_true, if_false,
          List.length_append, List.length_cons, List.length_nil]
        omega
      · cases czOk <;> simp [DietMacAndCheeseProver.do_check_zero]
    · rw [if_neg hp]
      simp only [List.length_append, List.length_cons, List.length_nil]
      omega
  · by_cases hp : s.check_zero_list.length + 1 = QUEUE_CAPACITY ∨ s.no_batching = true
    · rw [if_pos hp]
      cases flushOk
      · simp [DietMacAndCheeseProver.do_check_zero]
      · cases czOk
        · simp [DietMacAndCheeseProver.do_check_zero]
        · simp only [DietMacAndCheeseProver.do_check_zero, if_true, List.length_nil]
          intro
          omega
    · rw [if_neg hp]
      push_neg at hp
      simp only [List.length_append, List.length_cons, List.length_nil]
      intro
      omega
  · intro hnb hlt
    have hp : ¬ (s.check_zero_list.length + 1 = QUEUE_CAPACITY ∨ s.no_batching = true) := by
      rw [hnb]
      simp only [Bool.false_eq_true, or_false]
      omega
    rw [if_neg hp]
    exact ⟨rfl, rfl⟩
  · intro htr
    rw [if_pos htr]
    cases flushOk <;> cases czOk <;> simp [DietMacAndCheeseProver.do_check_zero]
  · intro hnb
    rw [if_pos (Or.inr hnb)]
    cases flushOk
    · simp [DietMacAndCheeseProver.do_check_zero]
    · cases czOk <;> simp [DietMacAndCheeseProver.do_check_zero]
  · cases czOk <;> cases qsOk <;>
      simp [DietMacAndCheeseProver.finalize, DietMacAndCheeseProver.do_check_zero,
        DietMacAndCheeseProver.do_mult_check, hs]

theorem verifier_queue_bound_aux {F : Type} (t : DietMacAndCheeseVerifier F)
    (w : MacVerifier F) (flushOk czOk qsOk : Bool) (ht : t.is_ok = true)
    (htlen : t.check_zero_list.length < QUEUE_CAPACITY) :
    (DietMacAndCheeseVerifier.assert_zero t w flushOk czOk).state.check_zero_list.length ≤
      QUEUE_CAPACITY ∧
    ((DietMacAndCheeseVerifier.assert_zero t w flushOk czOk).res = .ok () →
      (DietMacAndCheeseVerifier.assert_zero t w flushOk czOk).state.check_zero_list.length <
        QUEUE_CAPACITY) ∧
    (t.no_batching = false → t.check_zero_list.length + 1 < QUEUE_CAPACITY →
      (DietMacAndCheeseVerifier.assert_zero t w flushOk czOk).state.check_zero_list =
        t.check_zero_list ++ [w] ∧
      (DietMacAndCheeseVerifier.assert_zero t w flushOk czOk).events = []) ∧
    ((t.check_zero_list.length + 1 = QUEUE_CAPACITY ∨ t.no_batching = true) →
      (DietMacAndCheeseVerifier.assert_zero t w flushOk czOk).events.head? =
        some .flush) ∧
    (t.no_batching = true →
      (DietMacAndCheeseVerifier.assert_zero t w flushOk czOk).res = .ok () →
      (DietMacAndCheeseVerifier.assert_zero t w flushOk czOk).state.check_zero_list = []) ∧
    (DietMacAndCheeseVerifier.finalize t true true czOk true qsOk).state.check_zero_list =
      [] := by
  rw [verifier_assert_zero_reduction t w flushOk czOk ht]
  refine ⟨?_, ?_, ?_, ?_, ?_, ?_⟩
  · by_cases hp : t.check_zero_list.length + 1 = QUEUE_CAPACITY ∨ t.no_batching = true
    · rw [if_pos hp]
      cases flushOk
      · simp only [DietMacAndCheeseVerifier.do_check_zero, Bool.false_eq_true, if_false,
          List.length_append, List.length_cons, List.length_nil]
        omega
      · cases czOk <;> simp [DietMacAndCheeseVerifier.do_check_zero]
    · rw [if_neg hp]
      simp only [List.length_append, List.length_cons, List.length_nil]
      omega
  · by_cases hp : t.check_zero_list.length + 1 = QUEUE_CAPACITY ∨ t.no_batching = true
    · rw [if_pos hp]
      cases flushOk
      · simp [DietMacAndCheeseVerifier.do_check_zero]
      · cases czOk
        · simp [DietMacAndCheeseVerifier.do_check_zero]
        · simp only [DietMacAndCheeseVerifier.do_check_zero, if_true, List.length_nil]
          intro
          omega
    · rw [if_neg hp]
      push_neg at hp
      simp only [List.length_append, List.length_cons, List.length_nil]
      intro
      omega
  · intro hnb hlt
    have hp : ¬ (t.check_zero_list.length + 1 = QUEUE_CAPACITY ∨ t.no_batching = true) := by
      rw [hnb]
      simp only [Bool.false_eq_true, or_false]
      omega
    rw [if_neg hp]
    exact ⟨rfl, rfl⟩
  · intro htr
    rw [if_pos htr]
    cases flushOk <;> cases czOk <;> simp [DietMacAndCheeseVerifier.do_check_zero]
  · intro hnb
    rw [if_pos (Or.inr hnb)]
    cases flushOk
    · simp [DietMacAndCheeseVerifier.do_check_zero]
    · cases czOk <;> simp [DietMacAndCheeseVerifier.do_check_zero]
  · cases czOk <;> cases qsOk <;>
      simp [DietMacAndCheeseVerifier.finalize, DietMacAndCheeseVerifier.do_check_zero,
        DietMacAndCheeseVerifier.do_mult_check, ht]

theorem prover_assert_zero_capacity_flush_failure {K F : Type}
    (s : DietMacAndCheeseProver K F) (v : MacProver K F) (czOk : Bool)
    (hs : s.is_ok = true) (hcap : s.check_zero_list.length + 1 = QUEUE_CAPACITY) :
    DietMacAndCheeseProver.assert_zero s v false czOk =
      ⟨.error .protocolError,
        { s with monitor := s.monitor.incr_monitor_check_zero,
                 check_zero_list := s.check_zero_list ++ [v] }, [.flush]⟩ := by
  rw [prover_assert_zero_reduction s v false czOk hs, if_pos (Or.inl hcap)]
  rfl

theorem prover_assert_zero_at_capacity_overshoot {K F : Type}
    (s : DietMacAndCheeseProver K F) (v : MacProver K F) (flushOk czOk : Bool)
    (hs : s.is_ok = true) (hnb : s.no_batching = false)
    (hcap : s.check_zero_list.length = QUEUE_CAPACITY) :
    DietMacAndCheeseProver.assert_zero s v flushOk czOk =
      ⟨.ok (), { s with monitor := s.monitor.incr_monitor_check_zero,
                        check_zero_list := s.check_zero_list ++ [v] }, []⟩ := by
  have hno : ¬ (s.check_zero_list.length + 1 = QUEUE_CAPACITY ∨
      s.no_batching = true) := by
    rw [hcap, hnb]
    simp only [Bool.false_eq_true, or_false]
    omega
  rw [prover_assert_zero_reduction s v flushOk czOk hs, if_neg hno]

/-- C5 counterexample: the `QUEUE_CAPACITY` bound is not a global
invariant.  Starting from the healthy prover state `nearCapacityProver`
whose list holds `QUEUE_CAPACITY - 1` entries, an `assert_zero` whose
capacity-triggered flush hits a channel-flush failure returns an error
but leaves the list at exactly `QUEUE_CAPACITY` entries with the
evaluator not poisoned (the early return of `do_check_zero` neither
clears the list nor clears the ok-flag); because the flush trigger tests
equality with `QUEUE_CAPACITY`, the next `assert_zero` then returns
`Ok` while leaving `QUEUE_CAPACITY + 1` entries — contradicting both
"the list never exceeds QUEUE_CAPACITY" and "after every successful
assert_zero the list holds fewer than QUEUE_CAPACITY entries". -/
theorem assert_zero_exceeds_queue_capacity :
    nearCapacityProver.is_ok = true ∧
    nearCapacityProver.check_zero_list.length < QUEUE_CAPACITY ∧
    DietMacAndCheeseProver.assert_zero nearCapacityProver sampleMac false true =
      ⟨.error .protocolError, atCapacityProver, [.flush]⟩ ∧
    atCapacityProver.is_ok = true ∧
    atCapacityProver.check_zero_list.length = QUEUE_CAPACITY ∧
    (DietMacAndCheeseProver.assert_zero atCapacityProver sampleMac true true).res =
      .ok () ∧
    (DietMacAndCheeseProver.assert_zero atCapacityProver sampleMac true
      true).state.check_zero_list.length = QUEUE_CAPACITY + 1 := by
  have hp0 : nearCapacityProver.check_zero_list =
      List.replicate (QUEUE_CAPACITY - 1) sampleMac := rfl
  have hlen0 : nearCapacityProver.check_zero_list.length + 1 = QUEUE_CAPACITY := by
    rw [hp0, List.length_replicate]
    norm_num [QUEUE_CAPACITY]
  have hp1 : atCapacityProver.check_zero_list =
      List.replicate (QUEUE_CAPACITY - 1) sampleMac ++ [sampleMac] := rfl
  have hlen1 : atCapacityProver.check_zero_list.length = QUEUE_CAPACITY := by
    rw [hp1, List.length_append, List.length_replicate]
    norm_num [QUEUE_CAPACITY]
  have h1 := prover_assert_zero_capacity_flush_failure nearCapacityProver sampleMac
    true rfl hlen0
  have hrec : ({ nearCapacityProver with
      monitor := nearCapacityProver.monitor.incr_monitor_check_zero,
      check_zero_list := nearCapacityProver.check_zero_list ++ [sampleMac] } :
        DietMacAndCheeseProver Int Int) = atCapacityProver := rfl
  have h2 := prover_assert_zero_at_capacity_overshoot atCapacityProver sampleMac
    true true rfl rfl hlen1
  refine ⟨rfl, ?_, ?_, rfl, hlen1, ?_, ?_⟩
  · rw [hp0, List.length_replicate]
    norm_num [QUEUE_CAPACITY]
  · rw [h1, hrec]
  · rw [h2]
  · rw [h2]
    show (atCapacityProver.check_zero_list ++ [sampleMac]).length = QUEUE_CAPACITY + 1
    rw [List.length_append, hlen1]
    rfl

/-- C5 (amended): on both roles, starting from a pending zero-check list
below `QUEUE_CAPACITY` (3,000,000), `assert_zero` appends the value and
the list does not exceed `QUEUE_CAPACITY` after the call; a flush is
attempted exactly when the list reaches exactly `QUEUE_CAPACITY` or the
evaluator is in immediate (`no_batching`) mode — otherwise the call
appends without any communication — and `finalize` always flushes the
queue; after every successful `assert_zero` from such a state the list
holds fewer than `QUEUE_CAPACITY` entries, and in immediate mode it is
empty.  The below-capacity precondition is necessary: a channel-flush
failure inside a capacity-triggered flush leaves the list at exactly
`QUEUE_CAPACITY` with the evaluator not poisoned, from where a
subsequent successful `assert_zero` leaves `QUEUE_CAPACITY + 1`
entries. -/
theorem assert_zero_queue_capacity {K F : Type}
    (s : DietMacAndCheeseProver K F) (t : DietMacAndCheeseVerifier F)
    (v : MacProver K F) (w : MacVerifier F) (flushOk czOk qsOk : Bool)
    (hs : s.is_ok = true) (ht : t.is_ok = true)
    (hlen : s.check_zero_list.length < QUEUE_CAPACITY)
    (htlen : t.check_zero_list.length < QUEUE_CAPACITY) :
    ((DietMacAndCheeseProver.assert_zero s v flushOk czOk).state.check_zero_list.length ≤
        QUEUE_CAPACITY ∧
      ((DietMacAndCheeseProver.assert_zero s v flushOk czOk).res = .ok () →
        (DietMacAndCheeseProver.assert_zero s v flushOk czOk).state.check_zero_list.length <
          QUEUE_CAPACITY) ∧
      (s.no_batching = false → s.check_zero_list.length + 1 < QUEUE_CAPACITY →
        (DietMacAndCheeseProver.assert_zero s v flushOk czOk).state.check_zero_list =
          s.check_zero_list ++ [v] ∧
        (DietMacAndCheeseProver.assert_zero s v flushOk czOk).events = []) ∧
      ((s.check_zero_list.length + 1 = QUEUE_CAPACITY ∨ s.no_batching = true) →
        (DietMacAndCheeseProver.assert_zero s v flushOk czOk).events.head? =
          some .flush) ∧
      (s.no_batching = true →
        (DietMacAndCheeseProver.assert_zero s v flushOk czOk).res = .ok () →
        (DietMacAndCheeseProver.assert_zero s v flushOk czOk).state.check_zero_list = []) ∧
      (DietMacAndCheeseProver.finalize s true true czOk true qsOk).state.check_zero_list =
        []) ∧
    ((DietMacAndCheeseVerifier.assert_zero t w flushOk czOk).state.check_zero_list.length ≤
        QUEUE_CAPACITY ∧
      ((DietMacAndCheeseVerifier.assert_zero t w flushOk czOk).res = .ok () →
        (DietMacAndCheeseVerifier.assert_zero t w flushOk czOk).state.check_zero_list.length <
          QUEUE_CAPACITY) ∧
      (t.no_batching = false → t.check_zero_list.length + 1 < QUEUE_CAPACITY →
        (DietMacAndCheeseVerifier.assert_zero t w flushOk czOk).state.check_zero_list =
          t.check_zero_list ++ [w] ∧
        (DietMacAndCheeseVerifier.assert_zero t w flushOk czOk).events = []) ∧
      ((t.check_zero_list.length + 1 = QUEUE_CAPACITY ∨ t.no_batching = true) →
        (DietMacAndCheeseVerifier.assert_zero t w flushOk czOk).events.head? =
          some .flush) ∧
      (t.no_batching = true →
        (DietMacAndCheeseVerifier.assert_zero t w flushOk czOk).res = .ok () →
        (DietMacAndCheeseVerifier.assert_zero t w flushOk czOk).state.check_zero_list = []) ∧
      (DietMacAndCheeseVerifier.finalize t true true czOk true qsOk).state.check_zero_list =
        []) :=
  ⟨prover_queue_bound_aux s v flushOk czOk qsOk hs hlen,
   verifier_queue_bound_aux t w flushOk czOk qsOk ht htlen⟩

/-- Witness: the queue-capacity theorem applied to concrete healthy
evaluators with empty pending lists. -/
theorem assert_zero_queue_capacity_witness :
    sampleProver.is_ok = true ∧
    sampleProver.check_zero_list.length < QUEUE_CAPACITY ∧
    (DietMacAndCheeseProver.assert_zero sampleProver sampleMac true
      true).state.check_zero_list.length ≤ QUEUE_CAPACITY :=
  ⟨rfl, by norm_num [sampleProver, QUEUE_CAPACITY],
    (assert_zero_queue_capacity sampleProver sampleVerifier sampleMac sampleMacV
      true true true rfl rfl (by norm_num [sampleProver, QUEUE_CAPACITY])
      (by norm_num [sampleVerifier, QUEUE_CAPACITY])).1.1⟩

/-- C6 counterexample: on both roles, when the multiplication-accumulator
finalize fails inside `finalize` (here on a healthy evaluator whose
zero-check succeeded), `finalize` returns the error but the ok-flag stays
`true` — the multiplication check cannot poison the evaluator, contrary
to the claim text "(which may poison)". -/
theorem finalize_mult_check_failure_does_not_poison :
    (DietMacAndCheeseProver.finalize sampleProver true true true true false).res =
      .error .protocolError ∧
    (DietMacAndCheeseProver.finalize sampleProver true true true true
      false).state.is_ok = true ∧
    (DietMacAndCheeseVerifier.finalize sampleVerifier true true true true false).res =
      .error .protocolError ∧
    (DietMacAndCheeseVerifier.finalize sampleVerifier true true true true
      false).state.is_ok = true :=
  ⟨rfl, rfl, rfl, rfl⟩

/-- C6 (amended): `finalize()` requires the ok-flag to be true, flushes
the channel first, flushes the zero-check queue (whose failure poisons),
then runs the multiplication-accumulator finalize (whose failure is
returned as the error but does not poison), and returns success exactly
when both sub-steps succeed; after a successful `finalize` the queue and
the accumulator are empty and a second `finalize` succeeds. -/
theorem finalize_success_iff_substeps {K F : Type}
    (s : DietMacAndCheeseProver K F) (t : DietMacAndCheeseVerifier F)
    (hs : s.is_ok = true) (ht : t.is_ok = true) (czOk qsOk : Bool) :
    (∀ s2 : DietMacAndCheeseProver K F, s2.is_ok = false →
      DietMacAndCheeseProver.finalize s2 true true czOk true qsOk =
        ⟨.error .stateError, s2, []⟩) ∧
    (DietMacAndCheeseProver.finalize s true true czOk true qsOk).events.head? =
      some .flush ∧
    ((DietMacAndCheeseProver.finalize s true true czOk true qsOk).res = .ok () ↔
      (czOk = true ∧ qsOk = true)) ∧
    (DietMacAndCheeseProver.finalize s true true czOk true qsOk).state.is_ok = czOk ∧
    (DietMacAndCheeseProver.finalize (DietMacAndCheeseProver.finalize s true true
      true true true).state true true true true true).res = .ok () ∧
    (DietMacAndCheeseProver.finalize s true true true true
      true).state.check_zero_list = [] ∧
    (DietMacAndCheeseProver.finalize s true true true true
      true).state.state_mult_check = [] ∧
    (∀ t2 : DietMacAndCheeseVerifier F, t2.is_ok = false →
      DietMacAndCheeseVerifier.finalize t2 true true czOk true qsOk =
        ⟨.error .stateError, t2, []⟩) ∧
    (DietMacAndCheeseVerifier.finalize t true true czOk true qsOk).events.head? =
      some .flush ∧
    ((DietMacAndCheeseVerifier.finalize t true true czOk true qsOk).res = .ok () ↔
      (czOk = true ∧ qsOk = true)) ∧
    (DietMacAndCheeseVerifier.finalize t true true czOk true qsOk).state.is_ok = czOk ∧
    (DietMacAndCheeseVerifier.finalize (DietMacAndCheeseVerifier.finalize t true true
      true true true).state true true true true true).res = .ok () ∧
    (DietMacAndCheeseVerifier.finalize t true true true true
      true).state.check_zero_list = [] ∧
    (DietMacAndCheeseVerifier.finalize t true true true true
      true).state.state_mult_check = [] := by
  cases czOk <;> cases qsOk <;>
    simp [DietMacAndCheeseProver.finalize, DietMacAndCheeseProver.do_check_zero,
      DietMacAndCheeseProver.do_mult_check, DietMacAndCheeseVerifier.finalize,
      DietMacAndCheeseVerifier.do_check_zero, DietMacAndCheeseVerifier.do_mult_check,
      hs, ht]

/-- Witness: the amended finalize theorem applied to concrete healthy
evaluators. -/
theorem finalize_success_iff_substeps_witness :
    sampleProver.is_ok = true ∧
    ((DietMacAndCheeseProver.finalize sampleProver true true true true false).res =
        .ok () ↔ (true = true ∧ false = true)) :=
  ⟨rfl,
    (finalize_success_iff_substeps sampleProver sampleVerifier rfl rfl
      true false).2.2.1⟩
